import Mathlib

/-!
Verification of the OAuth token cache in `src/team.py`
(`CustomZoomTool.get_access_token` and `CustomZoomTool._set_parent_token`).

Modelling choices:
* Timestamps are integers (seconds since epoch).  The two `time.time()`
  reads in `get_access_token` (the cache check on line 41 and the expiry
  computation on line 56) are passed in as two parameters `now` and `now2`.
* The outcome of `requests.post` is an explicit input: either a
  transport-level `RequestException`, or a response object carrying a
  status code and the two JSON body fields the code reads
  (`access_token`, `expires_in`).  Bodies are modelled as well-formed
  JSON objects that contain both keys.
* `response.raise_for_status()` raises `requests.HTTPError` exactly for
  status codes in the 4xx and 5xx ranges; `HTTPError` is a subclass of
  `RequestException`, so it is caught by the `except` clause.
* The wrapped `ZoomTool`'s name-mangled private field
  `_ZoomTool__access_token` is modelled as the field
  `parent_access_token` of the state.
-/

/-- Python truthiness of an `Optional[str]` value: `None` and `""` are falsy,
every other string is truthy. -/
def pyTruthy : Option String → Bool
  | none => false
  | some s => s != ""

/-- Python `str(x)` applied to an `Optional[str]` value. -/
def pyStr : Option String → String
  | none => "None"
  | some s => s

/-- A response object returned by `requests.post`: its status code and the
JSON body fields `access_token` and `expires_in` that the code reads. -/
structure HttpResponse where
  status_code : Nat
  access_token : String
  expires_in : Int
deriving Repr, DecidableEq

/-- The outcome of the `requests.post` call: either a transport-level
`requests.RequestException` (DNS, connect, timeout, TLS, ...), or a
response object. -/
inductive RequestOutcome where
  | exn : RequestOutcome
  | resp : HttpResponse → RequestOutcome
deriving Repr, DecidableEq

/-- `response.raise_for_status()` raises `requests.HTTPError` exactly when
the status code is a 4xx client error or a 5xx server error. -/
def raise_for_status_raises (r : HttpResponse) : Bool :=
  decide (400 ≤ r.status_code ∧ r.status_code < 600)

/-- The state of a `CustomZoomTool` instance: the configuration strings kept
by the `ZoomTool` base class, the token-url/cache fields set in `__init__`,
and the wrapped `ZoomTool`'s private field `_ZoomTool__access_token`
(modelled as `parent_access_token`). -/
structure CustomZoomTool where
  account_id : Option String
  client_id : Option String
  client_secret : Option String
  token_url : String
  access_token : Option String
  token_expires_at : Int
  parent_access_token : Option String
deriving Repr, DecidableEq

/-- `CustomZoomTool.__init__`: store the credentials, set the fixed token
URL, and start with an empty cache (`access_token = None`,
`token_expires_at = 0`).  `parent0` is whatever the external `ZoomTool`
base class put into its private token field. -/
def CustomZoomTool.init (a c s : Option String) (parent0 : Option String) :
    CustomZoomTool :=
  { account_id := a
    client_id := c
    client_secret := s
    token_url := "https://zoom.us/oauth/token"
    access_token := none
    token_expires_at := 0
    parent_access_token := parent0 }

/-- The observable content of the single `requests.post` call issued by
`get_access_token`: URL, the `Content-Type` header, the two form-body
fields, and the HTTP Basic auth pair. -/
structure TokenRequest where
  url : String
  content_type : String
  grant_type : String
  account_id : Option String
  auth_user : Option String
  auth_pass : Option String
deriving Repr, DecidableEq

/-- `CustomZoomTool._set_parent_token`: write `token` into the wrapped
`ZoomTool`'s private field `_ZoomTool__access_token`, but only when `token`
is truthy (non-empty). -/
def set_parent_token (st : CustomZoomTool) (token : String) : CustomZoomTool :=
  if token != "" then { st with parent_access_token := some token } else st

/-- The result of one call to `get_access_token`: the returned string, the
post-call object state, the token-endpoint requests issued during the call,
and whether `logger.error` was invoked. -/
structure GetTokenResult where
  retval : String
  state : CustomZoomTool
  requests : List TokenRequest
  logged_error : Bool
deriving Repr, DecidableEq

/-- The fast-path condition on line 41:
`if self.access_token and time.time() < self.token_expires_at`. -/
def fast_path (st : CustomZoomTool) (now : Int) : Bool :=
  pyTruthy st.access_token && decide (now < st.token_expires_at)

/-- `CustomZoomTool.get_access_token`.  `now` is the `time.time()` read of
the fast-path check, `now2` the `time.time()` read used for the expiry
computation, and `net` the outcome of the `requests.post` call (consulted
only on the refresh path). -/
def get_access_token (st : CustomZoomTool) (now now2 : Int)
    (net : RequestOutcome) : GetTokenResult :=
  if fast_path st now then
    { retval := pyStr st.access_token
      state := st
      requests := []
      logged_error := false }
  else
    let req : TokenRequest :=
      { url := st.token_url
        content_type := "application/x-www-form-urlencoded"
        grant_type := "account_credentials"
        account_id := st.account_id
        auth_user := st.client_id
        auth_pass := st.client_secret }
    match net with
    | .exn =>
        { retval := "", state := st, requests := [req], logged_error := true }
    | .resp r =>
        if raise_for_status_raises r then
          { retval := "", state := st, requests := [req], logged_error := true }
        else
          let st1 : CustomZoomTool :=
            { st with
                access_token := some r.access_token
                token_expires_at := now2 + r.expires_in - 60 }
          let st2 := set_parent_token st1 (pyStr st1.access_token)
          { retval := pyStr st2.access_token
            state := st2
            requests := [req]
            logged_error := false }

/-- A sequence of calls to `get_access_token`, each call given by its two
`time.time()` reads and the network outcome; returns the final state. -/
def run_calls (st : CustomZoomTool) :
    List (Int × Int × RequestOutcome) → CustomZoomTool
  | [] => st
  | (t1, t2, net) :: rest => run_calls (get_access_token st t1 t2 net).state rest

/-- `set_parent_token` never touches the cache fields. -/
theorem set_parent_token_cache (st : CustomZoomTool) (tok : String) :
    (set_parent_token st tok).access_token = st.access_token ∧
    (set_parent_token st tok).token_expires_at = st.token_expires_at ∧
    (set_parent_token st tok).account_id = st.account_id ∧
    (set_parent_token st tok).client_id = st.client_id ∧
    (set_parent_token st tok).client_secret = st.client_secret ∧
    (set_parent_token st tok).token_url = st.token_url := by
  unfold set_parent_token
  split <;> simp

/-- A truthy cached token with a strictly future expiry is served from the
cache: the cached string comes back, no request is issued, and the state is
untouched. -/
theorem fast_path_serves_cached (st : CustomZoomTool) (now now2 : Int)
    (net : RequestOutcome) (s : String) (hs : st.access_token = some s)
    (hne : s ≠ "") (ht : now < st.token_expires_at) :
    (get_access_token st now now2 net).retval = s ∧
    (get_access_token st now now2 net).requests = [] ∧
    (get_access_token st now now2 net).state = st := by
  have hfp : fast_path st now = true := by
    simp [fast_path, pyTruthy, hs, hne, ht]
  simp [get_access_token, hfp, pyStr, hs]

/-- Claim C1: if a (non-empty) token is cached and the check time is
strictly below the stored expiry, `get_access_token` returns the cached
token, issues no network request, and leaves the whole state (in particular
the cache pair `access_token` / `token_expires_at`) unchanged. -/
theorem fast_path_returns_cached (st : CustomZoomTool) (now now2 : Int)
    (net : RequestOutcome) (s : String) (hs : st.access_token = some s)
    (hne : s ≠ "") (ht : now < st.token_expires_at) :
    (get_access_token st now now2 net).retval = s ∧
    (get_access_token st now now2 net).requests = [] ∧
    (get_access_token st now now2 net).state = st :=
  fast_path_serves_cached st now now2 net s hs hne ht

/-- Witness for C1 at a concrete state. -/
theorem fast_path_returns_cached_witness :
    (get_access_token
      { account_id := some "acct", client_id := some "cid",
        client_secret := some "sec",
        token_url := "https://zoom.us/oauth/token",
        access_token := some "tok", token_expires_at := 100,
        parent_access_token := some "tok" } 10 10 RequestOutcome.exn).retval
        = "tok" ∧
    (get_access_token
      { account_id := some "acct", client_id := some "cid",
        client_secret := some "sec",
        token_url := "https://zoom.us/oauth/token",
        access_token := some "tok", token_expires_at := 100,
        parent_access_token := some "tok" } 10 10 RequestOutcome.exn).requests
        = [] ∧
    (get_access_token
      { account_id := some "acct", client_id := some "cid",
        client_secret := some "sec",
        token_url := "https://zoom.us/oauth/token",
        access_token := some "tok", token_expires_at := 100,
        parent_access_token := some "tok" } 10 10 RequestOutcome.exn).state
        = { account_id := some "acct", client_id := some "cid",
            client_secret := some "sec",
            token_url := "https://zoom.us/oauth/token",
            access_token := some "tok", token_expires_at := 100,
            parent_access_token := some "tok" } :=
  fast_path_returns_cached _ 10 10 RequestOutcome.exn "tok" rfl
    (by decide) (by decide)

/-- Claim C9: `_set_parent_token` with an empty token leaves the state (in
particular the wrapped `ZoomTool`'s private field) unchanged, and with a
non-empty token overwrites that field with the token. -/
theorem set_parent_token_empty_frame (st : CustomZoomTool) :
    set_parent_token st "" = st ∧
    ∀ tok : String, tok ≠ "" →
      (set_parent_token st tok).parent_access_token = some tok := by
  constructor
  · simp [set_parent_token]
  · intro tok htok
    simp [set_parent_token, htok]

/-- Witness for C9 at a concrete state and token. -/
theorem set_parent_token_empty_frame_witness :
    set_parent_token
      { account_id := none, client_id := none, client_secret := none,
        token_url := "https://zoom.us/oauth/token",
        access_token := none, token_expires_at := 0,
        parent_access_token := some "old" } "" =
      { account_id := none, client_id := none, client_secret := none,
        token_url := "https://zoom.us/oauth/token",
        access_token := none, token_expires_at := 0,
        parent_access_token := some "old" } ∧
    (set_parent_token
      { account_id := none, client_id := none, client_secret := none,
        token_url := "https://zoom.us/oauth/token",
        access_token := none, token_expires_at := 0,
        parent_access_token := some "old" } "new").parent_access_token
      = some "new" := by
  have h := set_parent_token_empty_frame
    { account_id := none, client_id := none, client_secret := none,
      token_url := "https://zoom.us/oauth/token",
      access_token := none, token_expires_at := 0,
      parent_access_token := some "old" }
  exact ⟨h.1, h.2 "new" (by decide)⟩

/-- Claim C10: when the cached token is the empty string, the fast path is
never taken — regardless of the current time, even strictly before
`token_expires_at` — and a fresh token exchange (exactly one request) is
performed instead. -/
theorem empty_cached_token_never_served (st : CustomZoomTool)
    (h : st.access_token = some "") (now now2 : Int) (net : RequestOutcome) :
    fast_path st now = false ∧
    (get_access_token st now now2 net).requests.length = 1 := by
  have hfp : fast_path st now = false := by
    simp [fast_path, pyTruthy, h]
  refine ⟨hfp, ?_⟩
  unfold get_access_token
  rw [hfp]
  cases net with
  | exn => simp
  | resp r =>
      by_cases hr : raise_for_status_raises r <;> simp [hr]

/-- Witness for C10: cached empty token with a far-future expiry, current
time well below it; an exchange still happens. -/
theorem empty_cached_token_never_served_witness :
    fast_path
      { account_id := some "acct", client_id := some "cid",
        client_secret := some "sec",
        token_url := "https://zoom.us/oauth/token",
        access_token := some "", token_expires_at := 1000,
        parent_access_token := none } 5 = false ∧
    (get_access_token
      { account_id := some "acct", client_id := some "cid",
        client_secret := some "sec",
        token_url := "https://zoom.us/oauth/token",
        access_token := some "", token_expires_at := 1000,
        parent_access_token := none } 5 5 RequestOutcome.exn).requests.length
      = 1 :=
  empty_cached_token_never_served _ rfl 5 5 RequestOutcome.exn

/-- On the refresh path, exactly one token-endpoint request is issued,
whatever the network outcome. -/
theorem refresh_path_one_request (st : CustomZoomTool) (now now2 : Int)
    (net : RequestOutcome) (hnf : fast_path st now = false) :
    (get_access_token st now now2 net).requests.length = 1 := by
  unfold get_access_token
  rw [hnf]
  cases net with
  | exn => simp
  | resp r =>
      by_cases hr : raise_for_status_raises r <;> simp [hr]

/-- Claim C5: when no token is cached, or the stored expiry is not strictly
in the future, the call issues exactly one token-endpoint request. -/
theorem refresh_exactly_one_request (st : CustomZoomTool) (now now2 : Int)
    (net : RequestOutcome)
    (h : st.access_token = none ∨ st.token_expires_at ≤ now) :
    (get_access_token st now now2 net).requests.length = 1 := by
  have hnf : fast_path st now = false := by
    rcases h with h | h
    · simp [fast_path, pyTruthy, h]
    · simp [fast_path, pyTruthy]
      intro hcontra
      omega
  exact refresh_path_one_request st now now2 net hnf

/-- Witness for C5: fresh object (no token cached), transport error. -/
theorem refresh_exactly_one_request_witness :
    (get_access_token (CustomZoomTool.init (some "a") (some "c") (some "s") none)
      0 0 RequestOutcome.exn).requests.length = 1 :=
  refresh_exactly_one_request _ 0 0 RequestOutcome.exn (Or.inl rfl)

/-- Claim C2 counterexample: a `300 Multiple Choices` response is not 2xx,
yet `raise_for_status` raises only on 4xx/5xx, so the code parses its body,
overwrites the cache, returns the body token (not `""`), and logs nothing. -/
theorem non_2xx_not_always_failure :
    ¬ (200 ≤ (300 : Nat) ∧ (300 : Nat) ≤ 299) ∧
    (get_access_token
      { account_id := some "acct", client_id := some "cid",
        client_secret := some "sec",
        token_url := "https://zoom.us/oauth/token",
        access_token := some "OLD", token_expires_at := 100,
        parent_access_token := some "OLD" } 200 200
      (RequestOutcome.resp
        { status_code := 300, access_token := "NEW", expires_in := 3600 })).retval
      = "NEW" ∧
    (get_access_token
      { account_id := some "acct", client_id := some "cid",
        client_secret := some "sec",
        token_url := "https://zoom.us/oauth/token",
        access_token := some "OLD", token_expires_at := 100,
        parent_access_token := some "OLD" } 200 200
      (RequestOutcome.resp
        { status_code := 300, access_token := "NEW", expires_in := 3600 })).state.access_token
      = some "NEW" ∧
    (get_access_token
      { account_id := some "acct", client_id := some "cid",
        client_secret := some "sec",
        token_url := "https://zoom.us/oauth/token",
        access_token := some "OLD", token_expires_at := 100,
        parent_access_token := some "OLD" } 200 200
      (RequestOutcome.resp
        { status_code := 300, access_token := "NEW", expires_in := 3600 })).logged_error
      = false := by
  refine ⟨by decide, ?_, ?_, ?_⟩ <;>
    simp [get_access_token, fast_path, pyTruthy, pyStr, raise_for_status_raises,
      set_parent_token]

/-- Claim C2 (amended): when a refresh-path exchange fails — a transport
`RequestException`, or a response with a 4xx/5xx status (so that
`raise_for_status` raises) — the call returns `""`, logs the error, and
leaves the entire prior state (cached token and expiry included)
untouched. -/
theorem failed_exchange_returns_sentinel (st : CustomZoomTool)
    (now now2 : Int) (net : RequestOutcome) (hnf : fast_path st now = false)
    (hfail : net = RequestOutcome.exn ∨
      ∃ r, net = RequestOutcome.resp r ∧ raise_for_status_raises r = true) :
    (get_access_token st now now2 net).retval = "" ∧
    (get_access_token st now now2 net).logged_error = true ∧
    (get_access_token st now now2 net).state = st := by
  unfold get_access_token
  rw [hnf]
  rcases hfail with h | ⟨r, hr, hraise⟩
  · subst h; simp
  · subst hr; simp [hraise]

/-- Witness for C2 (amended): expired cache, HTTP 401 response. -/
theorem failed_exchange_returns_sentinel_witness :
    (get_access_token
      { account_id := some "acct", client_id := some "cid",
        client_secret := some "sec",
        token_url := "https://zoom.us/oauth/token",
        access_token := some "OLD", token_expires_at := 100,
        parent_access_token := some "OLD" } 200 200
      (RequestOutcome.resp
        { status_code := 401, access_token := "", expires_in := 0 })).retval = "" ∧
    (get_access_token
      { account_id := some "acct", client_id := some "cid",
        client_secret := some "sec",
        token_url := "https://zoom.us/oauth/token",
        access_token := some "OLD", token_expires_at := 100,
        parent_access_token := some "OLD" } 200 200
      (RequestOutcome.resp
        { status_code := 401, access_token := "", expires_in := 0 })).logged_error
      = true ∧
    (get_access_token
      { account_id := some "acct", client_id := some "cid",
        client_secret := some "sec",
        token_url := "https://zoom.us/oauth/token",
        access_token := some "OLD", token_expires_at := 100,
        parent_access_token := some "OLD" } 200 200
      (RequestOutcome.resp
        { status_code := 401, access_token := "", expires_in := 0 })).state
      = { account_id := some "acct", client_id := some "cid",
          client_secret := some "sec",
          token_url := "https://zoom.us/oauth/token",
          access_token := some "OLD", token_expires_at := 100,
          parent_access_token := some "OLD" } :=
  failed_exchange_returns_sentinel _ 200 200 _ (by decide)
    (Or.inr ⟨_, rfl, by decide⟩)

/-- The refresh path on a non-raising response: what the call returns and
how the state changes. -/
theorem success_path_shape (st : CustomZoomTool) (now now2 : Int)
    (r : HttpResponse) (hnf : fast_path st now = false)
    (hok : raise_for_status_raises r = false) :
    (get_access_token st now now2 (RequestOutcome.resp r)).retval
      = r.access_token ∧
    (get_access_token st now now2 (RequestOutcome.resp r)).state.access_token
      = some r.access_token ∧
    (get_access_token st now now2 (RequestOutcome.resp r)).state.token_expires_at
      = now2 + r.expires_in - 60 ∧
    (get_access_token st now now2 (RequestOutcome.resp r)).state.parent_access_token
      = (if r.access_token ≠ "" then some r.access_token
         else st.parent_access_token) ∧
    (get_access_token st now now2 (RequestOutcome.resp r)).requests.length = 1 ∧
    (get_access_token st now now2 (RequestOutcome.resp r)).logged_error = false := by
  unfold get_access_token
  rw [hnf]
  by_cases hne : r.access_token = ""
  · simp [hok, pyStr, set_parent_token, hne]
  · simp [hok, pyStr, set_parent_token, hne]

/-- Claim C3: after a refresh-path exchange succeeding with body
`{access_token: "T", expires_in: 3600}` at store-time `t0`, the state caches
`"T"` with expiry `t0 + 3600 - 60`; every later call whose check time is
strictly below `t0 + 3600 - 60` serves `"T"` from the cache with no request
and leaves the state unchanged, and every call whose check time is at or
above `t0 + 3600 - 60` takes the refresh path and issues a request. -/
theorem success_window (st st1 : CustomZoomTool) (t0c t0 : Int)
    (hnf : fast_path st t0c = false)
    (hst1 : st1 = (get_access_token st t0c t0
      (RequestOutcome.resp
        { status_code := 200, access_token := "T", expires_in := 3600 })).state) :
    (get_access_token st t0c t0
      (RequestOutcome.resp
        { status_code := 200, access_token := "T", expires_in := 3600 })).retval
      = "T" ∧
    st1.access_token = some "T" ∧
    st1.token_expires_at = t0 + 3600 - 60 ∧
    (∀ t t2 : Int, ∀ net : RequestOutcome, t < t0 + 3600 - 60 →
      (get_access_token st1 t t2 net).retval = "T" ∧
      (get_access_token st1 t t2 net).requests = [] ∧
      (get_access_token st1 t t2 net).state = st1) ∧
    (∀ t t2 : Int, ∀ net : RequestOutcome, t0 + 3600 - 60 ≤ t →
      (get_access_token st1 t t2 net).requests.length = 1) := by
  have h := success_path_shape st t0c t0
    { status_code := 200, access_token := "T", expires_in := 3600 }
    hnf (by decide)
  have hret : (get_access_token st t0c t0
      (RequestOutcome.resp
        { status_code := 200, access_token := "T", expires_in := 3600 })).retval
      = "T" := h.1
  have hcache : (get_access_token st t0c t0
      (RequestOutcome.resp
        { status_code := 200, access_token := "T", expires_in := 3600 })).state.access_token
      = some "T" := h.2.1
  have hexp : (get_access_token st t0c t0
      (RequestOutcome.resp
        { status_code := 200, access_token := "T", expires_in := 3600 })).state.token_expires_at
      = t0 + 3600 - 60 := h.2.2.1
  subst hst1
  refine ⟨hret, hcache, hexp, ?_, ?_⟩
  · intro t t2 net ht
    exact fast_path_serves_cached _ t t2 net "T" hcache
      (by decide) (by rw [hexp]; omega)
  · intro t t2 net ht
    refine refresh_path_one_request _ t t2 net ?_
    simp only [fast_path, pyTruthy, hcache, hexp]
    simp
    omega

/-- Witness for C3: fresh object, exchange at `t0 = 1000`, later calls at
`t = 4539` (served from cache) and `t = 4540` (refresh). -/
theorem success_window_witness :
    (get_access_token (CustomZoomTool.init (some "a") (some "c") (some "s") none)
      1000 1000
      (RequestOutcome.resp
        { status_code := 200, access_token := "T", expires_in := 3600 })).retval
      = "T" ∧
    ((get_access_token (CustomZoomTool.init (some "a") (some "c") (some "s") none)
      1000 1000
      (RequestOutcome.resp
        { status_code := 200, access_token := "T", expires_in := 3600 })).state).access_token
      = some "T" ∧
    ((get_access_token (CustomZoomTool.init (some "a") (some "c") (some "s") none)
      1000 1000
      (RequestOutcome.resp
        { status_code := 200, access_token := "T", expires_in := 3600 })).state).token_expires_at
      = 1000 + 3600 - 60 ∧
    (∀ t t2 : Int, ∀ net : RequestOutcome, t < 1000 + 3600 - 60 →
      (get_access_token
        ((get_access_token (CustomZoomTool.init (some "a") (some "c") (some "s") none)
          1000 1000
          (RequestOutcome.resp
            { status_code := 200, access_token := "T", expires_in := 3600 })).state)
        t t2 net).retval = "T" ∧
      (get_access_token
        ((get_access_token (CustomZoomTool.init (some "a") (some "c") (some "s") none)
          1000 1000
          (RequestOutcome.resp
            { status_code := 200, access_token := "T", expires_in := 3600 })).state)
        t t2 net).requests = [] ∧
      (get_access_token
        ((get_access_token (CustomZoomTool.init (some "a") (some "c") (some "s") none)
          1000 1000
          (RequestOutcome.resp
            { status_code := 200, access_token := "T", expires_in := 3600 })).state)
        t t2 net).state =
        (get_access_token (CustomZoomTool.init (some "a") (some "c") (some "s") none)
          1000 1000
          (RequestOutcome.resp
            { status_code := 200, access_token := "T", expires_in := 3600 })).state) ∧
    (∀ t t2 : Int, ∀ net : RequestOutcome, 1000 + 3600 - 60 ≤ t →
      (get_access_token
        ((get_access_token (CustomZoomTool.init (some "a") (some "c") (some "s") none)
          1000 1000
          (RequestOutcome.resp
            { status_code := 200, access_token := "T", expires_in := 3600 })).state)
        t t2 net).requests.length = 1) :=
  success_window (CustomZoomTool.init (some "a") (some "c") (some "s") none)
    _ 1000 1000 (by decide) rfl

/-- Claim C4 counterexample: an exchange succeeding with an empty
`access_token` stores `""` in the cache and returns it, but
`_set_parent_token` skips the write, so the wrapped `ZoomTool`'s private
field keeps its old value instead of receiving the new token. -/
theorem empty_token_skips_parent_write :
    raise_for_status_raises
      { status_code := 200, access_token := "", expires_in := 3600 } = false ∧
    (get_access_token
      { account_id := some "acct", client_id := some "cid",
        client_secret := some "sec",
        token_url := "https://zoom.us/oauth/token",
        access_token := none, token_expires_at := 0,
        parent_access_token := some "OLD" } 200 200
      (RequestOutcome.resp
        { status_code := 200, access_token := "", expires_in := 3600 })).state.access_token
      = some "" ∧
    (get_access_token
      { account_id := some "acct", client_id := some "cid",
        client_secret := some "sec",
        token_url := "https://zoom.us/oauth/token",
        access_token := none, token_expires_at := 0,
        parent_access_token := some "OLD" } 200 200
      (RequestOutcome.resp
        { status_code := 200, access_token := "", expires_in := 3600 })).state.parent_access_token
      = some "OLD" ∧
    some "OLD" ≠ some ("" : String) := by
  refine ⟨by decide, ?_, ?_, by decide⟩ <;>
    simp [get_access_token, fast_path, pyTruthy, pyStr, raise_for_status_raises,
      set_parent_token]

/-- Claim C4 (amended): on a successful refresh-path exchange the function
stores the response's `access_token` as the cached value, sets the expiry
to the second `time.time()` read plus `expires_in` minus 60, returns the
token, and — when the token is non-empty — writes it into the wrapped
`ZoomTool`'s private field; an empty token leaves that field unchanged. -/
theorem success_updates_state (st : CustomZoomTool) (now now2 : Int)
    (r : HttpResponse) (hnf : fast_path st now = false)
    (hok : raise_for_status_raises r = false) :
    (get_access_token st now now2 (RequestOutcome.resp r)).retval
      = r.access_token ∧
    (get_access_token st now now2 (RequestOutcome.resp r)).state.access_token
      = some r.access_token ∧
    (get_access_token st now now2 (RequestOutcome.resp r)).state.token_expires_at
      = now2 + r.expires_in - 60 ∧
    (get_access_token st now now2 (RequestOutcome.resp r)).state.parent_access_token
      = (if r.access_token ≠ "" then some r.access_token
         else st.parent_access_token) := by
  have h := success_path_shape st now now2 r hnf hok
  exact ⟨h.1, h.2.1, h.2.2.1, h.2.2.2.1⟩

/-- Witness for C4 (amended): fresh object, 200 response with a non-empty
token. -/
theorem success_updates_state_witness :
    (get_access_token (CustomZoomTool.init (some "a") (some "c") (some "s") none)
      1000 1000
      (RequestOutcome.resp
        { status_code := 200, access_token := "tok", expires_in := 3600 })).retval
      = "tok" ∧
    (get_access_token (CustomZoomTool.init (some "a") (some "c") (some "s") none)
      1000 1000
      (RequestOutcome.resp
        { status_code := 200, access_token := "tok", expires_in := 3600 })).state.access_token
      = some "tok" ∧
    (get_access_token (CustomZoomTool.init (some "a") (some "c") (some "s") none)
      1000 1000
      (RequestOutcome.resp
        { status_code := 200, access_token := "tok", expires_in := 3600 })).state.token_expires_at
      = 1000 + 3600 - 60 ∧
    (get_access_token (CustomZoomTool.init (some "a") (some "c") (some "s") none)
      1000 1000
      (RequestOutcome.resp
        { status_code := 200, access_token := "tok", expires_in := 3600 })).state.parent_access_token
      = (if ("tok" : String) ≠ "" then some "tok" else none) :=
  success_updates_state (CustomZoomTool.init (some "a") (some "c") (some "s") none)
    1000 1000 { status_code := 200, access_token := "tok", expires_in := 3600 }
    (by decide) (by decide)

/-- Claim C8: a successful exchange with `expires_in = 10` at store-time
`t0` computes the expiry `t0 + 10 - 60`, which is already strictly in the
past, so any next call at a time not before `t0` takes the refresh path and
issues a second token-endpoint request. -/
theorem short_lifetime_immediate_expiry (st st1 : CustomZoomTool)
    (t0c t0 : Int) (tok : String) (hnf : fast_path st t0c = false)
    (hst1 : st1 = (get_access_token st t0c t0
      (RequestOutcome.resp
        { status_code := 200, access_token := tok, expires_in := 10 })).state)
    (t1 t2 : Int) (net : RequestOutcome) (ht : t0 ≤ t1) :
    st1.token_expires_at = t0 + 10 - 60 ∧
    st1.token_expires_at < t0 ∧
    (get_access_token st1 t1 t2 net).requests.length = 1 := by
  have hexp : (get_access_token st t0c t0
      (RequestOutcome.resp
        { status_code := 200, access_token := tok, expires_in := 10 })).state.token_expires_at
      = t0 + 10 - 60 :=
    (success_path_shape st t0c t0
      { status_code := 200, access_token := tok, expires_in := 10 }
      hnf rfl).2.2.1
  subst hst1
  refine ⟨hexp, by omega, ?_⟩
  refine refresh_path_one_request _ t1 t2 net ?_
  simp only [fast_path]
  have : decide (t1 < (get_access_token st t0c t0
      (RequestOutcome.resp
        { status_code := 200, access_token := tok, expires_in := 10 })).state.token_expires_at)
      = false := by
    rw [hexp]
    simp
    omega
  rw [this]
  simp

/-- Witness for C8: fresh object, exchange at `t0 = 1000` with lifetime 10,
next call at `t1 = 1000`. -/
theorem short_lifetime_immediate_expiry_witness :
    ((get_access_token (CustomZoomTool.init (some "a") (some "c") (some "s") none)
      1000 1000
      (RequestOutcome.resp
        { status_code := 200, access_token := "abc", expires_in := 10 })).state).token_expires_at
      = 1000 + 10 - 60 ∧
    ((get_access_token (CustomZoomTool.init (some "a") (some "c") (some "s") none)
      1000 1000
      (RequestOutcome.resp
        { status_code := 200, access_token := "abc", expires_in := 10 })).state).token_expires_at
      < 1000 ∧
    (get_access_token
      ((get_access_token (CustomZoomTool.init (some "a") (some "c") (some "s") none)
        1000 1000
        (RequestOutcome.resp
          { status_code := 200, access_token := "abc", expires_in := 10 })).state)
      1000 1001 RequestOutcome.exn).requests.length = 1 :=
  short_lifetime_immediate_expiry
    (CustomZoomTool.init (some "a") (some "c") (some "s") none)
    _ 1000 1000 "abc" (by decide) rfl 1000 1001 RequestOutcome.exn (by omega)

/-- One call never changes the configuration fields (credentials and token
URL) of the state. -/
theorem step_config_preserved (st : CustomZoomTool) (now now2 : Int)
    (net : RequestOutcome) :
    (get_access_token st now now2 net).state.account_id = st.account_id ∧
    (get_access_token st now now2 net).state.client_id = st.client_id ∧
    (get_access_token st now now2 net).state.client_secret = st.client_secret ∧
    (get_access_token st now now2 net).state.token_url = st.token_url := by
  unfold get_access_token
  split
  · simp
  · cases net with
    | exn => simp
    | resp r =>
        split
        · simp
        · simp only [set_parent_token]
          split <;> (simp; try (split <;> simp))

/-- A whole call sequence never changes the configuration fields. -/
theorem run_calls_config (calls : List (Int × Int × RequestOutcome))
    (st : CustomZoomTool) :
    (run_calls st calls).account_id = st.account_id ∧
    (run_calls st calls).client_id = st.client_id ∧
    (run_calls st calls).client_secret = st.client_secret ∧
    (run_calls st calls).token_url = st.token_url := by
  induction calls generalizing st with
  | nil => simp [run_calls]
  | cons c rest ih =>
      obtain ⟨t1, t2, net⟩ := c
      have hstep := step_config_preserved st t1 t2 net
      have h := ih (get_access_token st t1 t2 net).state
      simp only [run_calls]
      exact ⟨h.1.trans hstep.1, h.2.1.trans hstep.2.1,
        h.2.2.1.trans hstep.2.2.1, h.2.2.2.trans hstep.2.2.2⟩

/-- On the refresh path, the single issued request carries the state's
token URL, form-encoded content type, the `account_credentials` grant, the
account id, and the client id/secret as the Basic-auth pair. -/
theorem refresh_request_fields (st : CustomZoomTool) (now now2 : Int)
    (net : RequestOutcome) (hnf : fast_path st now = false) :
    (get_access_token st now now2 net).requests =
      [{ url := st.token_url
         content_type := "application/x-www-form-urlencoded"
         grant_type := "account_credentials"
         account_id := st.account_id
         auth_user := st.client_id
         auth_pass := st.client_secret }] := by
  unfold get_access_token
  rw [hnf]
  cases net with
  | exn => simp
  | resp r => by_cases hr : raise_for_status_raises r <;> simp [hr]

/-- Claim C7: for an object built by `__init__` and evolved through any
sequence of calls, every refresh-path call posts to the fixed URL
`https://zoom.us/oauth/token` with the form content type, the
`account_credentials` grant type, the configured account id, and Basic auth
from the configured client id and secret. -/
theorem refresh_request_shape (a c s p0 : Option String)
    (calls : List (Int × Int × RequestOutcome)) (now now2 : Int)
    (net : RequestOutcome)
    (hnf : fast_path (run_calls (CustomZoomTool.init a c s p0) calls) now
      = false) :
    (get_access_token (run_calls (CustomZoomTool.init a c s p0) calls)
        now now2 net).requests =
      [{ url := "https://zoom.us/oauth/token"
         content_type := "application/x-www-form-urlencoded"
         grant_type := "account_credentials"
         account_id := a
         auth_user := c
         auth_pass := s }] := by
  have hcfg := run_calls_config calls (CustomZoomTool.init a c s p0)
  have h := refresh_request_fields (run_calls (CustomZoomTool.init a c s p0) calls)
    now now2 net hnf
  rw [h, hcfg.1, hcfg.2.1, hcfg.2.2.1, hcfg.2.2.2]
  rfl

/-- Witness for C7: freshly constructed object, no prior calls, transport
error on the exchange. -/
theorem refresh_request_shape_witness :
    (get_access_token
      (run_calls (CustomZoomTool.init (some "acct") (some "cid") (some "sec") none) [])
      0 0 RequestOutcome.exn).requests =
      [{ url := "https://zoom.us/oauth/token"
         content_type := "application/x-www-form-urlencoded"
         grant_type := "account_credentials"
         account_id := some "acct"
         auth_user := some "cid"
         auth_pass := some "sec" }] :=
  refresh_request_shape (some "acct") (some "cid") (some "sec") none [] 0 0
    RequestOutcome.exn (by decide)

/-- One call either leaves the cache pair unchanged (fast path or failed
exchange) or installs a successful response body: cached token from the
body's `access_token` and expiry `now2 + expires_in - 60`. -/
theorem step_cache_cases (st : CustomZoomTool) (now now2 : Int)
    (net : RequestOutcome) :
    ((get_access_token st now now2 net).state.access_token = st.access_token ∧
     (get_access_token st now now2 net).state.token_expires_at
       = st.token_expires_at) ∨
    (∃ r, net = RequestOutcome.resp r ∧ raise_for_status_raises r = false ∧
      (get_access_token st now now2 net).state.access_token
        = some r.access_token ∧
      (get_access_token st now now2 net).state.token_expires_at
        = now2 + r.expires_in - 60) := by
  by_cases hfp : fast_path st now = true
  · left
    simp [get_access_token, hfp]
  · replace hfp : fast_path st now = false := by
      exact Bool.not_eq_true _ ▸ Bool.eq_false_iff.mpr hfp
    cases net with
    | exn =>
        left
        unfold get_access_token
        rw [hfp]
        simp
    | resp r =>
        by_cases hr : raise_for_status_raises r = true
        · left
          unfold get_access_token
          rw [hfp]
          simp [hr]
        · replace hr : raise_for_status_raises r = false :=
            Bool.eq_false_iff.mpr hr
          right
          have h := success_path_shape st now now2 r hfp hr
          exact ⟨r, rfl, hr, h.2.1, h.2.2.1⟩

/-- Tracking the cache through a call sequence: either some successful
exchange in the sequence produced the final cached token and its expiry, or
the sequence left the cache pair exactly as it started. -/
theorem run_calls_cache_origin (calls : List (Int × Int × RequestOutcome))
    (st : CustomZoomTool) :
    (∃ t1 t2 r, (t1, t2, RequestOutcome.resp r) ∈ calls ∧
       raise_for_status_raises r = false ∧
       (run_calls st calls).access_token = some r.access_token ∧
       (run_calls st calls).token_expires_at = t2 + r.expires_in - 60) ∨
    ((run_calls st calls).access_token = st.access_token ∧
     (run_calls st calls).token_expires_at = st.token_expires_at) := by
  induction calls generalizing st with
  | nil => right; simp [run_calls]
  | cons c rest ih =>
      obtain ⟨t1, t2, net⟩ := c
      have hrun : run_calls st ((t1, t2, net) :: rest)
          = run_calls (get_access_token st t1 t2 net).state rest := rfl
      rcases ih (get_access_token st t1 t2 net).state with
        ⟨t1', t2', r, hmem, hraise, hacc, hexp⟩ | ⟨hacc, hexp⟩
      · left
        exact ⟨t1', t2', r, List.mem_cons_of_mem _ hmem, hraise,
          hrun ▸ hacc, hrun ▸ hexp⟩
      · rcases step_cache_cases st t1 t2 net with
          ⟨ha, he⟩ | ⟨r, hnet, hraise, ha, he⟩
        · right
          exact ⟨(hrun ▸ hacc).trans ha, (hrun ▸ hexp).trans he⟩
        · left
          refine ⟨t1, t2, r, ?_, hraise, (hrun ▸ hacc).trans ha,
            (hrun ▸ hexp).trans he⟩
          rw [hnet]
          exact List.mem_cons_self _ _

/-- Claim C6: starting from `__init__` (empty cache) and applying any
sequence of `get_access_token` calls, whenever a token value is cached it
was installed by a successful exchange in that sequence, and the stored
expiry equals that exchange's issue time (`time.time()` at the store) plus
the provider-declared `expires_in` minus the 60-second safety margin. -/
theorem cached_token_expiry_invariant (a c s p0 : Option String)
    (calls : List (Int × Int × RequestOutcome)) (v : String)
    (hv : (run_calls (CustomZoomTool.init a c s p0) calls).access_token
      = some v) :
    ∃ t1 t2 r, (t1, t2, RequestOutcome.resp r) ∈ calls ∧
      raise_for_status_raises r = false ∧ r.access_token = v ∧
      (run_calls (CustomZoomTool.init a c s p0) calls).token_expires_at
        = t2 + r.expires_in - 60 := by
  rcases run_calls_cache_origin calls (CustomZoomTool.init a c s p0) with
    ⟨t1, t2, r, hmem, hraise, hacc, hexp⟩ | ⟨hacc, _⟩
  · refine ⟨t1, t2, r, hmem, hraise, ?_, hexp⟩
    rw [hv] at hacc
    exact (Option.some.injEq _ _ ▸ hacc).symm
  · rw [hv] at hacc
    simp [CustomZoomTool.init] at hacc

/-- Witness for C6: one successful exchange at store-time 5 with lifetime
3600 installs the token and the expiry `5 + 3600 - 60`. -/
theorem cached_token_expiry_invariant_witness :
    ∃ t1 t2 r, (t1, t2, RequestOutcome.resp r) ∈
        [((0 : Int), (5 : Int), RequestOutcome.resp
          { status_code := 200, access_token := "T", expires_in := 3600 })] ∧
      raise_for_status_raises r = false ∧ r.access_token = "T" ∧
      (run_calls (CustomZoomTool.init none none none none)
        [((0 : Int), (5 : Int), RequestOutcome.resp
          { status_code := 200, access_token := "T", expires_in := 3600 })]).token_expires_at
        = t2 + r.expires_in - 60 :=
  cached_token_expiry_invariant none none none none _ "T" (by decide)
